import Mathlib

/-!
Verification of the gitlobster CLI layer (`src/cli.rs`) and of the core
components its specification describes (project filter, project lister,
bounded-concurrency scheduler, transfer worker).

The CLI layer is embedded directly from `src/cli.rs`.  The `cloner`
module (filter, lister, scheduler, worker) is not part of the visible
sources, so those components are modelled from the specification; each
such definition carries a doc comment starting with `Modelled from the
spec:`.
-/

namespace Gitlobster

/-- Log levels, mirroring `tracing::Level` (only the five levels used in
`src/cli.rs` lines 96–102). -/
inductive Level where
  | error
  | warn
  | info
  | debug
  | trace
deriving DecidableEq, Repr

/-- Modelled from the spec: Endpoint Credentials for the *fetch* instance —
`{base URL, personal access token}`.  `FetchGitlabOptions` itself lives in
the `cloner` module, which is not among the visible sources; only its
constructor call `FetchGitlabOptions::new(url, token)` appears in
`src/cli.rs` line 105. -/
structure FetchGitlabOptions where
  url : String
  token : String
deriving DecidableEq, Repr

/-- Modelled from the spec: Endpoint Credentials for the *backup* instance
plus the target backup group.  `BackupGitlabOptions` lives in the `cloner`
module; only `BackupGitlabOptions::new(url, token, group)` appears in
`src/cli.rs` line 116. -/
structure BackupGitlabOptions where
  url : String
  token : String
  group : String
deriving DecidableEq, Repr

/-- The filter-pattern choice from the `cloner` module: a tagged sum of an
include pattern list or an exclude pattern list, exactly as used in
`src/cli.rs` lines 110–112 (`FilterPatterns::Exclude(patterns)` /
`FilterPatterns::Include`). -/
inductive FilterPatterns where
  | Include : List String → FilterPatterns
  | Exclude : List String → FilterPatterns
deriving DecidableEq, Repr

/-- The parsed command-line options, field for field from `struct Cli` in
`src/cli.rs` lines 9–91.  Rust's `Option<Vec<String>>` becomes
`Option (List String)`; the `u8` verbosity counter and the `usize`/`u32`
numeric options become `Nat`.  The Rust fields `include` and `exclude` are
named `includePatterns` / `excludePatterns` here because `include` is a
Lean keyword. -/
structure Cli where
  fu : String
  ft : String
  bu : Option String
  bt : Option String
  bg : Option String
  includePatterns : Option (List String)
  excludePatterns : Option (List String)
  dst : Option String
  verbose : Nat
  dry_run : Bool
  objects_per_page : Option Nat
  limit : Option Nat
  concurrency_limit : Nat
  only_owned : Bool
  only_membership : Bool
  download_ssh : Bool
  upload_ssh : Bool
  disable_hierarchy : Bool
deriving DecidableEq, Repr

/-- The clap default for `--concurrency-limit`, from the attribute
`default_value_t = 21` on `Cli::concurrency_limit` (`src/cli.rs` line 68):
when the option is not supplied on the command line, clap fills the field
with this value. -/
def defaultConcurrencyLimit : Nat := 21

/-- The run-wide configuration passed to `clone`, field for field from the
`CloneParams` construction in `src/cli.rs` lines 121–135. -/
structure CloneParams where
  fetch : FetchGitlabOptions
  dst : Option String
  backup : Option BackupGitlabOptions
  patterns : Option FilterPatterns
  dry_run : Bool
  objects_per_page : Option Nat
  limit : Option Nat
  concurrency_limit : Nat
  only_owned : Bool
  only_membership : Bool
  download_ssh : Bool
  upload_ssh : Bool
  disable_hierarchy : Bool
deriving DecidableEq, Repr

/-- The verbosity-to-log-level match from `run`, `src/cli.rs` lines
96–102: `0 ⇒ ERROR, 1 ⇒ WARN, 2 ⇒ INFO, 3 ⇒ DEBUG, _ ⇒ TRACE`. -/
def logLevel : Nat → Level
  | 0 => Level.error
  | 1 => Level.warn
  | 2 => Level.info
  | 3 => Level.debug
  | _ => Level.trace

/-- The filter-pattern construction from `run`, `src/cli.rs` lines
107–113: both `--include` and `--exclude` present is an error
(`bail!`); otherwise `--exclude` yields `Exclude`, and absent that the
optional `--include` is mapped to `Include`. -/
def mkPatterns (inc exc : Option (List String)) :
    Except String (Option FilterPatterns) :=
  if exc.isSome && inc.isSome then
    Except.error "You cannot use the --include and --exclude flag together"
  else
    match exc with
    | some patterns => Except.ok (some (FilterPatterns.Exclude patterns))
    | none => Except.ok (inc.map FilterPatterns.Include)

/-- The backup-option construction from `run`, `src/cli.rs` lines
115–119: only when *all three* of `--bu`, `--bt`, `--bg` are present is
`BackupGitlabOptions::new` invoked (propagating its error via `?`);
otherwise the backup configuration is `None`.  The fallible constructor
is passed in as `backupNew`, since its body is in the unseen `cloner`
module. -/
def mkBackup (backupNew : String → String → String →
    Except String BackupGitlabOptions)
    (bu bt bg : Option String) : Except String (Option BackupGitlabOptions) :=
  match bu, bt, bg with
  | some url, some token, some group =>
    match backupNew url token group with
    | Except.ok b => Except.ok (some b)
    | Except.error e => Except.error e
  | _, _, _ => Except.ok none

/-- The `run` entry point of `src/cli.rs` (lines 93–138), up to the final
call `clone(clone_params)`: it returns the `CloneParams` value that would
be passed to `clone`, or the first error raised on the way (from
`FetchGitlabOptions::new` at line 105, the `bail!` for simultaneous
`--include`/`--exclude` at line 108, or `BackupGitlabOptions::new` at
line 116).  The two fallible constructors live in the unseen `cloner`
module and are taken as parameters; the `tracing_subscriber` side effect
at line 103 has no bearing on the returned value and is modelled by the
separate pure `logLevel`. -/
def run (fetchNew : String → String → Except String FetchGitlabOptions)
    (backupNew : String → String → String → Except String BackupGitlabOptions)
    (cli : Cli) : Except String CloneParams :=
  match fetchNew cli.fu cli.ft with
  | Except.error e => Except.error e
  | Except.ok fetch_gl =>
    match mkPatterns cli.includePatterns cli.excludePatterns with
    | Except.error e => Except.error e
    | Except.ok patterns =>
      match mkBackup backupNew cli.bu cli.bt cli.bg with
      | Except.error e => Except.error e
      | Except.ok backup_gl =>
        Except.ok
          { fetch := fetch_gl
            dst := cli.dst
            backup := backup_gl
            patterns := patterns
            dry_run := cli.dry_run
            objects_per_page := cli.objects_per_page
            limit := cli.limit
            concurrency_limit := cli.concurrency_limit
            only_owned := cli.only_owned
            only_membership := cli.only_membership
            download_ssh := cli.download_ssh
            upload_ssh := cli.upload_ssh
            disable_hierarchy := cli.disable_hierarchy }

/-- Modelled from the spec: a Project Descriptor — `{numeric/opaque id,
full namespace path, default branch/visibility metadata, SSH and HTTP
clone URLs}`, immutable once listed (spec §3). -/
structure Project where
  id : Nat
  path : String
  defaultBranch : String
  sshUrlToRepo : String
  httpUrlToRepo : String
deriving DecidableEq, Repr

/-- Modelled from the spec: the Project Filter
(spec §4.1) — `Include(set)` is true iff at least one pattern matches
the full namespace path, `Exclude(set)` true iff no pattern matches, no
patterns configured is always true.  The
regex engine lives outside the visible sources, so pattern matching is
abstracted as a boolean relation `regexMatch pattern path`. -/
def filterAccepts (regexMatch : String → String → Bool) :
    Option FilterPatterns → String → Bool
  | none, _ => true
  | some (FilterPatterns.Include ps), path => ps.any fun pat => regexMatch pat path
  | some (FilterPatterns.Exclude ps), path =>
    ps.all fun pat => !(regexMatch pat path)

/-- Modelled from the spec: the Project Lister (spec §4.2) — it requests
successive pages from the source instance until either the API reports no
further pages (modelled by the page list running out) or the running
count of yielded descriptors reaches the total limit; `none` means no
limit. -/
def listProjects (pages : List (List Project)) :
    Option Nat → List Project
  | none =>
    match pages with
    | [] => []
    | pg :: rest => pg ++ listProjects rest none
  | some l =>
    match pages with
    | [] => []
    | pg :: rest =>
      if pg.length < l then pg ++ listProjects rest (some (l - pg.length))
      else pg.take l

/-- Modelled from the spec: the instantaneous state of the Concurrency
Scheduler (spec §4.5, §5) — projects not yet started, Transfer Worker
invocations currently in flight, and collected outcomes of finished
ones. -/
structure SchedState where
  pending : List Project
  active : List Project
  done : List Project
deriving DecidableEq, Repr

/-- Modelled from the spec: one scheduling event of the bounded worker
pool (spec §4.5) — a new Transfer Worker may start only while fewer than
`n` are active (the counting-semaphore guard), and any in-flight worker
may finish, moving its project to the collected outcomes. -/
inductive SchedStep (n : Nat) : SchedState → SchedState → Prop where
  | start (p : Project) (ps act d : List Project) (h : act.length < n) :
      SchedStep n ⟨p :: ps, act, d⟩ ⟨ps, p :: act, d⟩
  | finish (ps act₁ act₂ d : List Project) (p : Project) :
      SchedStep n ⟨ps, act₁ ++ p :: act₂, d⟩ ⟨ps, act₁ ++ act₂, p :: d⟩

/-- Modelled from the spec: the states a run can reach from an initial
scheduler state by any interleaving of start/finish events. -/
inductive SchedReach (n : Nat) (init : SchedState) : SchedState → Prop where
  | refl : SchedReach n init init
  | tail {s t : SchedState} :
      SchedReach n init s → SchedStep n s t → SchedReach n init t

/-- Modelled from the spec: a per-project Transfer Outcome —
`{Transferred, Skipped(reason), Failed(error)}` (spec §3). -/
inductive Outcome where
  | Transferred
  | Skipped (reason : String)
  | Failed (error : String)
deriving DecidableEq, Repr

/-- Modelled from the spec: an observable side effect of a Transfer
Worker — a git fetch/clone network call, a local filesystem write, or a
mirror-push call (spec §4.4). -/
inductive Effect where
  | fetchCall (source : String)
  | fsWrite (path : String)
  | pushCall (dest : String)
deriving DecidableEq, Repr

/-- Modelled from the spec: the Transfer Worker
(`transfer(project, destination, params) -> TransferOutcome`, spec §4.4)
together with its effect trace.  A dry run short-circuits before
Fetching: it only reports that the project would be transferred, with no
effects.  Otherwise the worker fetches (clone/update), and, if a backup
target is configured, pushes; any stage failure terminates the pipeline
at that stage with a Failed outcome.  The git transport primitives are
outside the visible sources and are abstracted as the fallible
`doFetch`/`doPush`. -/
def transferWorker (params : CloneParams)
    (doFetch doPush : Project → Except String Unit)
    (proj : Project) : Outcome × List Effect :=
  if params.dry_run then
    (Outcome.Skipped "dry run: would transfer", [])
  else
    match doFetch proj with
    | Except.error e => (Outcome.Failed e, [Effect.fetchCall proj.path])
    | Except.ok _ =>
      let fetched := [Effect.fetchCall proj.path, Effect.fsWrite proj.path]
      match params.backup with
      | none => (Outcome.Transferred, fetched)
      | some b =>
        match doPush proj with
        | Except.error e =>
          (Outcome.Failed e, fetched ++ [Effect.pushCall b.group])
        | Except.ok _ =>
          (Outcome.Transferred, fetched ++ [Effect.pushCall b.group])

/-- Modelled from the spec: the projects a run attempts — the lister's
(possibly limit-capped) output restricted to the filter-surviving ones
(spec §2 control flow). -/
def survivors (params : CloneParams) (regexMatch : String → String → Bool)
    (pages : List (List Project)) : List Project :=
  (listProjects pages params.limit).filter fun proj =>
    filterAccepts regexMatch params.patterns proj.path

/-- Modelled from the spec: a whole run's collected per-project outcomes
(one per surviving project) together with the concatenated effect traces
of all Transfer Worker invocations (spec §2, §4.4, §6). -/
def runPipeline (params : CloneParams) (regexMatch : String → String → Bool)
    (pages : List (List Project))
    (doFetch doPush : Project → Except String Unit) :
    List (Project × Outcome) × List Effect :=
  ((survivors params regexMatch pages).map fun proj =>
      (proj, (transferWorker params doFetch doPush proj).1),
    (survivors params regexMatch pages).flatMap fun proj =>
      (transferWorker params doFetch doPush proj).2)

/-- Replace only the dry-run flag of a configuration, keeping everything
else identical (used to compare a dry run with the corresponding real
run). -/
def withDryRun (params : CloneParams) (b : Bool) : CloneParams :=
  { params with dry_run := b }

/-! ### Concrete fixtures used to exercise the definitions -/

/-- A `FetchGitlabOptions::new` model that always succeeds, for exercising
`run` on concrete inputs. -/
def okFetchNew : String → String → Except String FetchGitlabOptions :=
  fun url token => Except.ok ⟨url, token⟩

/-- A `BackupGitlabOptions::new` model that always succeeds, for
exercising `run` on concrete inputs. -/
def okBackupNew : String → String → String → Except String BackupGitlabOptions :=
  fun url token group => Except.ok ⟨url, token, group⟩

/-- A minimal command line: mandatory fetch URL and token, everything
optional left unset, all flags off, `concurrency_limit` at its clap
default. -/
def baseCli : Cli :=
  { fu := "https://gitlab.local/"
    ft := "secret"
    bu := none
    bt := none
    bg := none
    includePatterns := none
    excludePatterns := none
    dst := none
    verbose := 0
    dry_run := false
    objects_per_page := none
    limit := none
    concurrency_limit := defaultConcurrencyLimit
    only_owned := false
    only_membership := false
    download_ssh := false
    upload_ssh := false
    disable_hierarchy := false }

/-- The clone parameters `run` produces from `baseCli`. -/
def baseParams : CloneParams :=
  { fetch := ⟨"https://gitlab.local/", "secret"⟩
    dst := none
    backup := none
    patterns := none
    dry_run := false
    objects_per_page := none
    limit := none
    concurrency_limit := 21
    only_owned := false
    only_membership := false
    download_ssh := false
    upload_ssh := false
    disable_hierarchy := false }

/-- A command line supplying both `--include` and `--exclude`. -/
def cliBothFilters : Cli :=
  { baseCli with
    includePatterns := some ["^team/"]
    excludePatterns := some ["^other/"] }

/-- A command line supplying only `--exclude`. -/
def cliOnlyExclude : Cli :=
  { baseCli with excludePatterns := some ["^other/"] }

/-- The clone parameters `run` produces from `cliOnlyExclude`. -/
def onlyExcludeParams : CloneParams :=
  { baseParams with patterns := some (FilterPatterns.Exclude ["^other/"]) }

/-- A command line supplying a backup URL but neither backup token nor
backup group: a partially-specified backup configuration. -/
def cliPartialBackup : Cli :=
  { baseCli with bu := some "https://backup-gitlab.local/" }

/-- A sample project descriptor. -/
def sampleProject : Project :=
  { id := 1
    path := "team/a"
    defaultBranch := "main"
    sshUrlToRepo := "git@gitlab.local:team/a.git"
    httpUrlToRepo := "https://gitlab.local/team/a.git" }

/-! ### Helper lemmas -/

/-- Characterisation of a successful `run`: every field of the produced
`CloneParams` is fixed by the `Cli` input and the three fallible
sub-computations. -/
theorem run_ok_iff (fetchNew : String → String → Except String FetchGitlabOptions)
    (backupNew : String → String → String → Except String BackupGitlabOptions)
    (cli : Cli) (p : CloneParams) :
    run fetchNew backupNew cli = Except.ok p ↔
      ∃ f pats bk,
        fetchNew cli.fu cli.ft = Except.ok f ∧
        mkPatterns cli.includePatterns cli.excludePatterns = Except.ok pats ∧
        mkBackup backupNew cli.bu cli.bt cli.bg = Except.ok bk ∧
        p = { fetch := f, dst := cli.dst, backup := bk, patterns := pats,
              dry_run := cli.dry_run, objects_per_page := cli.objects_per_page,
              limit := cli.limit, concurrency_limit := cli.concurrency_limit,
              only_owned := cli.only_owned, only_membership := cli.only_membership,
              download_ssh := cli.download_ssh, upload_ssh := cli.upload_ssh,
              disable_hierarchy := cli.disable_hierarchy } := by
  unfold run
  cases hf : fetchNew cli.fu cli.ft with
  | error e => simp [hf]
  | ok f =>
    cases hp : mkPatterns cli.includePatterns cli.excludePatterns with
    | error e => simp [hp]
    | ok pats =>
      cases hb : mkBackup backupNew cli.bu cli.bt cli.bg with
      | error e => simp [hb]
      | ok bk =>
        simp only [Except.ok.injEq]
        constructor
        · intro h
          exact ⟨f, pats, bk, rfl, rfl, rfl, h.symm⟩
        · rintro ⟨f', pats', bk', h₁, h₂, h₃, rfl⟩
          cases h₁
          cases h₂
          cases h₃
          rfl

/-- When not all three backup options are present, `mkBackup` yields
`none` without consulting the constructor. -/
theorem mkBackup_eq_none
    (backupNew : String → String → String → Except String BackupGitlabOptions)
    (bu bt bg : Option String)
    (h : ¬(bu.isSome = true ∧ bt.isSome = true ∧ bg.isSome = true)) :
    mkBackup backupNew bu bt bg = Except.ok none := by
  cases bu <;> cases bt <;> cases bg <;> simp [mkBackup] at h ⊢

/-! ### Claims about the CLI layer (`src/cli.rs`) -/

/-- C1: if both `--include` and `--exclude` pattern sets are supplied,
`run` returns an error; in particular no `CloneParams` value is produced
and `clone` is never invoked (the model of `run` returns the parameters
`clone` would receive, so an error result means `clone` is unreached). -/
theorem run_rejects_include_with_exclude
    (fetchNew : String → String → Except String FetchGitlabOptions)
    (backupNew : String → String → String → Except String BackupGitlabOptions)
    (cli : Cli)
    (hinc : cli.includePatterns.isSome = true)
    (hexc : cli.excludePatterns.isSome = true) :
    ∃ e, run fetchNew backupNew cli = Except.error e := by
  cases hf : fetchNew cli.fu cli.ft with
  | error e => exact ⟨e, by simp [run, hf]⟩
  | ok f =>
    refine ⟨"You cannot use the --include and --exclude flag together", ?_⟩
    simp [run, hf, mkPatterns, hinc, hexc]

/-- Witness for C1 at a concrete command line carrying both filter
flags. -/
theorem run_rejects_include_with_exclude_witness :
    cliBothFilters.includePatterns.isSome = true ∧
    cliBothFilters.excludePatterns.isSome = true ∧
    ∃ e, run okFetchNew okBackupNew cliBothFilters = Except.error e :=
  ⟨rfl, rfl, run_rejects_include_with_exclude okFetchNew okBackupNew
    cliBothFilters rfl rfl⟩

/-- C2 counterexample: with only the backup URL supplied (token and group
absent) `run` succeeds — it silently proceeds with no backup configured —
rather than failing with a configuration error as the claim states. -/
theorem partial_backup_accepted :
    run okFetchNew okBackupNew cliPartialBackup = Except.ok baseParams ∧
    baseParams.backup = none := ⟨rfl, rfl⟩

/-- C2 as amended: a partially-specified backup configuration is *not* an
error; whenever `run` succeeds, a configuration in which not all three of
backup URL, token and group are present yields `backup = none` (the
backup half is silently dropped and the run proceeds without it). -/
theorem partial_backup_treated_as_absent
    (fetchNew : String → String → Except String FetchGitlabOptions)
    (backupNew : String → String → String → Except String BackupGitlabOptions)
    (cli : Cli) (p : CloneParams)
    (hpart : ¬(cli.bu.isSome = true ∧ cli.bt.isSome = true ∧
      cli.bg.isSome = true))
    (hrun : run fetchNew backupNew cli = Except.ok p) :
    p.backup = none := by
  rcases (run_ok_iff fetchNew backupNew cli p).1 hrun with
    ⟨f, pats, bk, _, _, hb, rfl⟩
  rw [mkBackup_eq_none backupNew cli.bu cli.bt cli.bg hpart] at hb
  cases hb
  rfl

/-- Witness for the amended C2 at the concrete partial configuration. -/
theorem partial_backup_treated_as_absent_witness :
    ¬(cliPartialBackup.bu.isSome = true ∧ cliPartialBackup.bt.isSome = true ∧
      cliPartialBackup.bg.isSome = true) ∧
    run okFetchNew okBackupNew cliPartialBackup = Except.ok baseParams ∧
    baseParams.backup = none :=
  ⟨by decide, rfl,
    partial_backup_treated_as_absent okFetchNew okBackupNew cliPartialBackup
      baseParams (by decide) rfl⟩

/-- C3: on every command line on which `run` proceeds to `clone`, the
constructed `patterns` field is `Exclude p` when only `--exclude p` was
given, `Include p` when only `--include p` was given, and `none` when
neither was given (and `none` makes the Project Filter accept every
path). The sum type `FilterPatterns` cannot be simultaneously `Include`
and `Exclude`. -/
theorem run_patterns_construction
    (fetchNew : String → String → Except String FetchGitlabOptions)
    (backupNew : String → String → String → Except String BackupGitlabOptions)
    (cli : Cli) (p : CloneParams)
    (hrun : run fetchNew backupNew cli = Except.ok p) :
    (∀ e, cli.excludePatterns = some e →
      cli.includePatterns = none ∧
      p.patterns = some (FilterPatterns.Exclude e)) ∧
    (∀ i, cli.includePatterns = some i → cli.excludePatterns = none →
      p.patterns = some (FilterPatterns.Include i)) ∧
    (cli.includePatterns = none → cli.excludePatterns = none →
      p.patterns = none) ∧
    (p.patterns = none →
      ∀ m path, filterAccepts m p.patterns path = true) := by
  rcases (run_ok_iff fetchNew backupNew cli p).1 hrun with
    ⟨f, pats, bk, _, hp, _, rfl⟩
  refine ⟨?_, ?_, ?_, ?_⟩
  · intro e he
    rw [he] at hp
    cases hi : cli.includePatterns with
    | some i =>
      rw [hi] at hp
      simp [mkPatterns] at hp
    | none =>
      rw [hi] at hp
      simp [mkPatterns] at hp
      exact ⟨rfl, hp.symm⟩
  · intro i hi he
    rw [hi, he] at hp
    simp [mkPatterns] at hp
    exact hp.symm
  · intro hi he
    rw [hi, he] at hp
    simp [mkPatterns] at hp
    exact hp.symm
  · intro hnone m path
    rw [hnone]
    rfl

/-- Witness for C3 at a command line carrying only `--exclude`. -/
theorem run_patterns_construction_witness :
    run okFetchNew okBackupNew cliOnlyExclude = Except.ok onlyExcludeParams ∧
    (∀ e, cliOnlyExclude.excludePatterns = some e →
      cliOnlyExclude.includePatterns = none ∧
      onlyExcludeParams.patterns = some (FilterPatterns.Exclude e)) ∧
    (∀ i, cliOnlyExclude.includePatterns = some i →
      cliOnlyExclude.excludePatterns = none →
      onlyExcludeParams.patterns = some (FilterPatterns.Include i)) ∧
    (cliOnlyExclude.includePatterns = none →
      cliOnlyExclude.excludePatterns = none →
      onlyExcludeParams.patterns = none) ∧
    (onlyExcludeParams.patterns = none →
      ∀ m path, filterAccepts m onlyExcludeParams.patterns path = true) :=
  ⟨rfl, run_patterns_construction okFetchNew okBackupNew cliOnlyExclude
    onlyExcludeParams rfl⟩

/-- C9: the verbosity count maps to ERROR, WARN, INFO, DEBUG for 0–3 and
to TRACE for every count of at least 4 (extra repetitions never lower the
level and never fail). -/
theorem logLevel_of_verbosity :
    logLevel 0 = Level.error ∧ logLevel 1 = Level.warn ∧
    logLevel 2 = Level.info ∧ logLevel 3 = Level.debug ∧
    ∀ v, 4 ≤ v → logLevel v = Level.trace := by
  refine ⟨rfl, rfl, rfl, rfl, ?_⟩
  intro v hv
  obtain ⟨k, rfl⟩ : ∃ k, v = k + 4 := ⟨v - 4, by omega⟩
  rfl

/-- Witness for C9's quantified clause at verbosity 7. -/
theorem logLevel_of_verbosity_witness :
    4 ≤ 7 ∧ logLevel 7 = Level.trace :=
  ⟨by decide, logLevel_of_verbosity.2.2.2.2 7 (by decide)⟩

/-- C10: when `--concurrency-limit` is not supplied, clap fills the field
with its declared default, and `run` passes it through unchanged, so the
`CloneParams` handed to `clone` carries `concurrency_limit = 21`. -/
theorem default_concurrency_limit_is_21
    (fetchNew : String → String → Except String FetchGitlabOptions)
    (backupNew : String → String → String → Except String BackupGitlabOptions)
    (cli : Cli) (p : CloneParams)
    (hdef : cli.concurrency_limit = defaultConcurrencyLimit)
    (hrun : run fetchNew backupNew cli = Except.ok p) :
    p.concurrency_limit = 21 := by
  rcases (run_ok_iff fetchNew backupNew cli p).1 hrun with
    ⟨f, pats, bk, _, _, _, rfl⟩
  exact hdef

/-- Witness for C10 at the minimal command line. -/
theorem default_concurrency_limit_is_21_witness :
    baseCli.concurrency_limit = defaultConcurrencyLimit ∧
    run okFetchNew okBackupNew baseCli = Except.ok baseParams ∧
    baseParams.concurrency_limit = 21 :=
  ⟨rfl, rfl, default_concurrency_limit_is_21 okFetchNew okBackupNew baseCli
    baseParams rfl rfl⟩

/-! ### Claims about the spec-modelled core components -/

/-- C4: for every match relation, pattern set `P` and namespace path `p`,
the Project Filter with `Include P` accepts `p` iff at least one pattern
in `P` matches `p`, with `Exclude P` accepts iff no pattern matches, and
with no patterns configured it always accepts. -/
theorem filterAccepts_semantics (m : String → String → Bool)
    (P : List String) (p : String) :
    (filterAccepts m (some (FilterPatterns.Include P)) p = true ↔
      ∃ pat, pat ∈ P ∧ m pat p = true) ∧
    (filterAccepts m (some (FilterPatterns.Exclude P)) p = true ↔
      ∀ pat, pat ∈ P → m pat p = false) ∧
    filterAccepts m none p = true := by
  refine ⟨?_, ?_, rfl⟩
  · simp [filterAccepts, List.any_eq_true]
  · simp [filterAccepts, List.all_eq_true]

/-- C5: whatever pages the source API serves, the Project Lister yields
at most `l` descriptors under total limit `l`. -/
theorem listProjects_respects_limit (pages : List (List Project)) (l : Nat) :
    (listProjects pages (some l)).length ≤ l := by
  induction pages generalizing l with
  | nil => simp [listProjects]
  | cons pg rest ih =>
    rw [listProjects]
    by_cases h : pg.length < l
    · have hrec := ih (l - pg.length)
      simp only [h, if_true, List.length_append]
      omega
    · simp only [h, if_false, List.length_take]
      omega

/-- C6: every scheduler state reachable from an idle start keeps at most
`n` Transfer Worker invocations simultaneously in flight — the
counting-semaphore guard on `start` is an invariant of the whole run. -/
theorem scheduler_bounds_active (n : Nat) (projects : List Project)
    (s : SchedState)
    (h : SchedReach n ⟨projects, [], []⟩ s) :
    s.active.length ≤ n := by
  induction h with
  | refl => simp
  | tail _ step ih =>
    cases step with
    | start p ps act d hlt => simpa using hlt
    | finish ps act₁ act₂ d p =>
      simp only [List.length_append] at ih ⊢
      simp only [List.length_cons] at ih
      omega

/-- Witness for C6: with limit 1, after starting the single pending
project, exactly one worker is in flight — within the bound. -/
theorem scheduler_bounds_active_witness :
    (SchedState.mk [] [sampleProject] []).active.length ≤ 1 :=
  scheduler_bounds_active 1 [sampleProject] ⟨[], [sampleProject], []⟩
    (SchedReach.tail SchedReach.refl
      (SchedStep.start sampleProject [] [] [] (by decide)))

/-- One scheduling event preserves the multiset of projects distributed
over the pending/active/done partitions. -/
theorem schedStep_perm {n : Nat} {s t : SchedState} (h : SchedStep n s t) :
    List.Perm (t.pending ++ t.active ++ t.done)
      (s.pending ++ s.active ++ s.done) := by
  cases h with
  | start p ps act d hlt =>
    simp only [List.append_assoc, List.cons_append]
    exact List.perm_middle.trans (List.Perm.refl _)
  | finish ps act₁ act₂ d p =>
    simp only [List.append_assoc, List.cons_append]
    exact List.Perm.append_left ps (List.Perm.append_left act₁ List.perm_middle)

/-- Along any reachable execution the projects are merely redistributed
between pending, active and done. -/
theorem schedReach_perm {n : Nat} {init s : SchedState}
    (h : SchedReach n init s) :
    List.Perm (s.pending ++ s.active ++ s.done)
      (init.pending ++ init.active ++ init.done) := by
  induction h with
  | refl => exact List.Perm.refl _
  | tail _ step ih => exact (schedStep_perm step).trans ih

/-- C7: when a run that starts with exactly the filter-surviving,
limit-capped project list finishes (nothing pending, nothing in flight),
the collected outcomes are a permutation of that list — every surviving
project yields exactly one outcome, with no duplicates and no silent
omissions. -/
theorem scheduler_outcomes_complete (n : Nat) (params : CloneParams)
    (m : String → String → Bool) (pages : List (List Project))
    (s : SchedState)
    (h : SchedReach n ⟨survivors params m pages, [], []⟩ s)
    (hp : s.pending = []) (ha : s.active = []) :
    List.Perm s.done (survivors params m pages) := by
  have hperm := schedReach_perm h
  rw [hp, ha] at hperm
  simpa using hperm

/-- Witness for C7: a single surviving project scheduled, run and
finished under limit 1 produces exactly its own outcome entry. -/
theorem scheduler_outcomes_complete_witness :
    List.Perm [sampleProject]
      (survivors baseParams (fun _ _ => true) [[sampleProject]]) :=
  scheduler_outcomes_complete 1 baseParams (fun _ _ => true)
    [[sampleProject]] ⟨[], [], [sampleProject]⟩
    (SchedReach.tail
      (SchedReach.tail SchedReach.refl
        (SchedStep.start sampleProject [] [] [] (by decide)))
      (SchedStep.finish [] [] [] [] sampleProject))
    rfl rfl

/-- C8: a dry run performs no effects at all — in particular zero
filesystem writes and zero push calls — yet reports exactly the projects
the corresponding real run (same configuration, dry-run flag cleared)
would attempt, namely the filter-surviving limit-capped list. -/
theorem dry_run_frame (params : CloneParams) (m : String → String → Bool)
    (pages : List (List Project))
    (doFetch doPush : Project → Except String Unit)
    (h : params.dry_run = true) :
    (runPipeline params m pages doFetch doPush).2 = [] ∧
    ((runPipeline params m pages doFetch doPush).1).map Prod.fst =
      ((runPipeline (withDryRun params false) m pages doFetch doPush).1).map
        Prod.fst ∧
    ((runPipeline params m pages doFetch doPush).1).map Prod.fst =
      survivors params m pages := by
  refine ⟨?_, ?_, ?_⟩
  · simp [runPipeline, transferWorker, h]
  · simp [runPipeline, withDryRun, survivors]
  · have hid : (Prod.fst ∘ fun proj : Project =>
        (proj, (transferWorker params doFetch doPush proj).1)) = id := rfl
    simp [runPipeline, hid]

/-- Witness for C8 at a concrete dry-run configuration over one page with
one project. -/
theorem dry_run_frame_witness :
    (withDryRun baseParams true).dry_run = true ∧
    ((runPipeline (withDryRun baseParams true) (fun _ _ => true)
        [[sampleProject]] (fun _ => Except.ok ()) (fun _ => Except.ok ())).2
      = [] ∧
    ((runPipeline (withDryRun baseParams true) (fun _ _ => true)
        [[sampleProject]] (fun _ => Except.ok ()) (fun _ => Except.ok ())).1).map
        Prod.fst =
      ((runPipeline (withDryRun (withDryRun baseParams true) false)
        (fun _ _ => true) [[sampleProject]] (fun _ => Except.ok ())
        (fun _ => Except.ok ())).1).map Prod.fst ∧
    ((runPipeline (withDryRun baseParams true) (fun _ _ => true)
        [[sampleProject]] (fun _ => Except.ok ()) (fun _ => Except.ok ())).1).map
        Prod.fst =
      survivors (withDryRun baseParams true) (fun _ _ => true)
        [[sampleProject]]) :=
  ⟨rfl, dry_run_frame (withDryRun baseParams true) (fun _ _ => true)
    [[sampleProject]] (fun _ => Except.ok ()) (fun _ => Except.ok ()) rfl⟩

end Gitlobster
